import Mathlib

/-!
# Verification of tc_viz (IBTrACS tropical-cyclone track visualization)

Shallow embedding of the `tc_viz` Python package:

* `ibtracs.py` — `_lon_to_360`, `get_storm_track`
* `plot.py` — `draw_wind_radii_arcs`, `_parse_radii`, the extent computation
  and the annotation-offset alternation of `plot_track`
* `cli.py` — the argument handling of `main`

Modelling conventions:

* A tabular cell value (as produced by `pandas.read_csv`) is a `Cell`:
  the single-space blank marker `" "` used by IBTrACS, a NaN (what pandas
  yields for an empty field, the only value on which `pd.isna` is true),
  an integer-numeric string, or some other non-numeric string.
* Coordinates and radii are rationals (the floating-point values involved
  are small decimals; no claim depends on rounding).
* Python float `%` with positive divisor `b` is `a - b * ⌊a / b⌋`.
* Timestamps are rationals under an order-embedding of calendar time on
  which `pd.to_datetime(str(year))` (midnight Jan 1 of `year`) maps to
  `(year : ℚ)`, so the year-window mask keeps exactly the times `t` with
  `year ≤ t < year + 1`.
* Code that can raise a Python exception returns `Except Unit _`.
* Matplotlib drawing calls are recorded as a list of `Prim` primitives.
-/

namespace TcViz

/-- One tabular cell value as read from the IBTrACS CSV by pandas:
the blank marker `" "`, a NaN, an integer-numeric string carrying `n`,
or some other (non-numeric, non-blank) string. -/
inductive Cell where
  | blank : Cell
  | na : Cell
  | num : Int → Cell
  | str : String → Cell
deriving DecidableEq, Repr

/-- `pd.isna(v)`: true exactly on NaN. -/
def Cell.isna : Cell → Bool
  | .na => true
  | _ => false

/-- `v == " "`: true exactly on the blank marker. -/
def Cell.isBlankSpace : Cell → Bool
  | .blank => true
  | _ => false

/-- `int(v)`: succeeds exactly on an integer-numeric string; every other
value makes Python raise (`ValueError`/`TypeError`). -/
def Cell.toIntExcept : Cell → Except Unit Int
  | .num n => .ok n
  | _ => .error ()

/-- A value is treated as absent by `_parse_radii`'s guard
`v == " " or pd.isna(v)`. -/
def Cell.isAbsent (c : Cell) : Bool := c.isBlankSpace || c.isna

/-- Whether the cell is an integer-numeric string. -/
def Cell.isNum : Cell → Bool
  | .num _ => true
  | _ => false

/-- The four quadrant cells of one wind-radii threshold, in the order
`SE, NE, SW, NW` built by `_parse_radii` (`[f"{prefix}_{q}" for q in
["SE", "NE", "SW", "NW"]]`). -/
structure Quad where
  se : Cell
  ne : Cell
  sw : Cell
  nw : Cell
deriving DecidableEq, Repr

/-- The list comprehension `[int(v) / scale for v in values]`: converts
each cell with `int` (propagating the exception of the first failure)
and divides by `scale`. -/
def radiiValues (values : List Cell) (scale : ℚ) : Except Unit (List ℚ) :=
  match values with
  | [] => .ok []
  | v :: rest =>
    match v.toIntExcept with
    | .error e => .error e
    | .ok n =>
      match radiiValues rest scale with
      | .error e => .error e
      | .ok tail => .ok ((n : ℚ) / scale :: tail)

/-- `plot._parse_radii(row, prefix, scale)` restricted to the four cells it
reads: returns `none` when any of the four values is blank or NaN, the
scaled radii otherwise; a non-numeric non-blank value raises. -/
def parseRadii (q : Quad) (scale : ℚ) : Except Unit (Option (List ℚ)) :=
  let values := [q.se, q.ne, q.sw, q.nw]
  if values.any (fun v => v.isBlankSpace || v.isna) then .ok none
  else
    match radiiValues values scale with
    | .error e => .error e
    | .ok rs => .ok (some rs)

/-- A matplotlib drawing primitive issued by `draw_wind_radii_arcs`:
`patches.Arc((cx, cy), w, h, theta1, theta2)`, one horizontal segment of
`ax.hlines` (at height `y` from `xmn` to `xmx`), or one vertical segment
of `ax.vlines` (at abscissa `x` from `ymn` to `ymx`). -/
inductive Prim where
  | arc (cx cy w h theta1 theta2 : ℚ)
  | hseg (y xmn xmx : ℚ)
  | vseg (x ymn ymx : ℚ)
deriving DecidableEq, Repr

/-- Is the primitive one of the four `patches.Arc` patches? -/
def Prim.isArc : Prim → Bool
  | .arc _ _ _ _ _ _ => true
  | _ => false

/-- Is the primitive a connector spoke (an `hlines` or `vlines` segment)? -/
def Prim.isSpoke : Prim → Bool
  | .hseg _ _ _ => true
  | .vseg _ _ _ => true
  | _ => false

/-- The set of points a spoke segment covers on the drawing surface (a
segment is drawn between its two endpoints whatever their order); `Arc`
patches are compared structurally elsewhere, so they are not given a
point-coverage semantics here. -/
def Prim.coversPoint : Prim → ℚ × ℚ → Bool
  | .hseg y a b, (px, py) => py == y && (min a b ≤ px && px ≤ max a b)
  | .vseg x a b, (px, py) => px == x && (min a b ≤ py && py ≤ max a b)
  | .arc _ _ _ _ _ _, _ => false

/-- `plot.draw_wind_radii_arcs(xcenter, ycenter, radii, ax, lw, ec)` as the
list of primitives it adds to the axes, in order: the four `patches.Arc`
from `zip(radii, [0, 90, 180, 270])` with width and height `2 * rad` and
angles `theta1 = theta`, `theta2 = theta + 90`; then
`ax.hlines([ycenter, ycenter], [xcenter + radii[0], xcenter - radii[1]],
[xcenter + radii[3], xcenter - radii[2]])`, which draws element-wise one
segment per (y, xmin, xmax) triple; then
`ax.vlines([xcenter, xcenter], [ycenter + radii[0], ycenter - radii[2]],
[ycenter + radii[1], ycenter - radii[3]])`. Callers pass exactly four
radii `[SE, NE, SW, NW]`. -/
def drawWindRadiiArcs (xcenter ycenter : ℚ) (radii : List ℚ) : List Prim :=
  ((radii.zip [(0 : ℚ), 90, 180, 270]).map
    (fun p => Prim.arc xcenter ycenter (2 * p.1) (2 * p.1) p.2 (p.2 + 90)))
  ++ [Prim.hseg ycenter (xcenter + radii.getD 0 0) (xcenter + radii.getD 3 0),
      Prim.hseg ycenter (xcenter - radii.getD 1 0) (xcenter - radii.getD 2 0)]
  ++ [Prim.vseg xcenter (ycenter + radii.getD 0 0) (ycenter + radii.getD 1 0),
      Prim.vseg xcenter (ycenter - radii.getD 2 0) (ycenter - radii.getD 3 0)]

/-- Modelled from the spec (for the refinement comparison of the spoke
claim): the connector spokes as the spec describes them — one horizontal
segment from `x + radius[SE]` to `x - radius[NE]` and one from
`x + radius[NW]` to `x - radius[SW]`, both at `y = center_y`; one vertical
segment from `y + radius[SE]` to `y - radius[SW]` and one from
`y + radius[NE]` to `y - radius[NW]`, both at `x = center_x`. -/
def specClaimedSpokes (xcenter ycenter : ℚ) (radii : List ℚ) : List Prim :=
  [Prim.hseg ycenter (xcenter + radii.getD 0 0) (xcenter - radii.getD 1 0),
   Prim.hseg ycenter (xcenter + radii.getD 3 0) (xcenter - radii.getD 2 0),
   Prim.vseg xcenter (ycenter + radii.getD 0 0) (ycenter - radii.getD 2 0),
   Prim.vseg xcenter (ycenter + radii.getD 1 0) (ycenter - radii.getD 3 0)]

/-- The per-threshold drawing step of `plot_track`:
`radii = _parse_radii(row, prefix, scale); if radii is not None:
draw_wind_radii_arcs(at_x, at_y, radii, ...)` — nothing is drawn when the
radii are absent, and a parse exception propagates. -/
def drawThreshold (xc yc : ℚ) (q : Quad) (scale : ℚ) : Except Unit (List Prim) :=
  match parseRadii q scale with
  | .error e => .error e
  | .ok none => .ok []
  | .ok (some radii) => .ok (drawWindRadiiArcs xc yc radii)

/-- `ibtracs._lon_to_360`'s `%`: Python float modulo with positive divisor,
`a % b = a - b * floor(a / b)`. -/
def pymod (a b : ℚ) : ℚ := a - b * (⌊a / b⌋ : ℤ)

/-- `ibtracs._lon_to_360(dlon) = (360 + (dlon % 360)) % 360`. -/
def lonTo360 (dlon : ℚ) : ℚ := pymod (360 + pymod dlon 360) 360

/-- `pd.to_datetime(str(year))` — midnight Jan 1 — under the timestamp
order-embedding of the file header: the year boundary maps to the year
itself. -/
def toDatetimeOfYear (year : Int) : ℚ := (year : ℚ)

/-- One archive row restricted to the columns `get_storm_track` extracts and
`plot_track` reads (`NAME`, `ISO_TIME`, `WMO_WIND`, `WMO_PRES`, `LAT`,
`LON`, and the `USA_R34/R50/R64` quadrant groups used by the renderer). -/
structure Row where
  name : String
  isoTime : ℚ
  wmoWind : Cell
  wmoPres : Cell
  lat : ℚ
  lon : ℚ
  r34 : Quad
  r50 : Quad
  r64 : Quad
deriving DecidableEq, Repr

/-- A row of the DataFrame `get_storm_track` returns: `LON_180` holds the
original signed longitude and `LON` the 0–360 normalized one. -/
structure TrackRow where
  name : String
  isoTime : ℚ
  wmoWind : Cell
  wmoPres : Cell
  lat : ℚ
  lon : ℚ
  lon180 : ℚ
  r34 : Quad
  r50 : Quad
  r64 : Quad
deriving DecidableEq, Repr

/-- The final longitude transform of `get_storm_track`:
`data["LON_180"] = data["LON"]; data["LON"] = data["LON"].astype(float).apply(_lon_to_360)`. -/
def Row.toTrackRow (r : Row) : TrackRow :=
  { name := r.name, isoTime := r.isoTime, wmoWind := r.wmoWind,
    wmoPres := r.wmoPres, lat := r.lat, lon := lonTo360 r.lon,
    lon180 := r.lon, r34 := r.r34, r50 := r.r50, r64 := r.r64 }

/-- `ibtracs.get_storm_track(name, year, ibtracs_csv, filter_missing_wmo)`
applied to the parsed archive rows (the DataFrame after `pd.read_csv`):
drop the units row (`data.iloc[1:, :]`), keep rows with
`data["NAME"] == name`, keep rows with
`year_start <= ISO_TIME < year_end`, optionally drop rows whose
`WMO_WIND` or `WMO_PRES` is the blank marker `" "`, then add `LON_180`
and normalize `LON`. -/
def getStormTrack (name : String) (year : Int) (archive : List Row)
    (filterMissingWmo : Bool) : List TrackRow :=
  let data := archive.drop 1
  let data := data.filter (fun r => r.name == name)
  let data := data.filter (fun r =>
    decide (toDatetimeOfYear year ≤ r.isoTime) &&
    decide (r.isoTime < toDatetimeOfYear (year + 1)))
  let data :=
    if filterMissingWmo then
      (data.filter (fun r => !r.wmoWind.isBlankSpace)).filter
        (fun r => !r.wmoPres.isBlankSpace)
    else data
  data.map Row.toTrackRow

/-- The map-extent computation of `plot_track` feeding `_setup_map`:
`lats.min(), lats.max(), lons.min(), lons.max()` padded by `offset` on each
side (`set_extent([min_lon - offset, max_lon + offset, min_lat - offset,
max_lat + offset])`). On an empty track pandas `min`/`max` have no value
(they return NaN), so no finite extent exists: `none`. -/
def trackExtent (track : List TrackRow) (offset : ℚ) :
    Option (ℚ × ℚ × ℚ × ℚ) :=
  match (track.map TrackRow.lon).min?, (track.map TrackRow.lon).max?,
        (track.map TrackRow.lat).min?, (track.map TrackRow.lat).max? with
  | some mnLon, some mxLon, some mnLat, some mxLat =>
    some (mnLon - offset, mxLon + offset, mnLat - offset, mxLat + offset)
  | _, _, _, _ => none

/-- `config.ANNOTATION_OFFSET_POS = (180, 5)`. -/
def ANNOTATION_OFFSET_POS : Int × Int := (180, 5)

/-- `config.ANNOTATION_OFFSET_NEG = (-280, -5)`. -/
def ANNOTATION_OFFSET_NEG : Int × Int := (-280, -5)

/-- The annotation-offset choice of the `plot_track` row loop: `sign`
starts at `1`; each row uses `ANNOTATION_OFFSET_POS if sign > 0 else
ANNOTATION_OFFSET_NEG` and then `sign *= -1`. The row itself is not
consulted. -/
def annotationOffsetsAux : List TrackRow → Int → List (Int × Int)
  | [], _ => []
  | _ :: rest, sign =>
    (if sign > 0 then ANNOTATION_OFFSET_POS else ANNOTATION_OFFSET_NEG)
      :: annotationOffsetsAux rest (sign * (-1))

/-- The sequence of annotation offsets `plot_track` uses over its rows,
starting from `sign = 1`. -/
def annotationOffsets (track : List TrackRow) : List (Int × Int) :=
  annotationOffsetsAux track 1

/-- `cli.main`'s filter decision:
`filter_wmo = not args.no_filter_wmo and args.year != 2021`. -/
def cliFilterWmo (noFilterWmo : Bool) (year : Int) : Bool :=
  !noFilterWmo && !(year == 2021)

/-- `cli.main`'s call to the loader: `storm_name = args.name.upper()` and
`get_storm_track(name=storm_name, ..., filter_missing_wmo=filter_wmo)`. -/
def mainTrack (argName : String) (year : Int) (archive : List Row)
    (noFilterWmo : Bool) : List TrackRow :=
  getStormTrack argName.toUpper year archive (cliFilterWmo noFilterWmo year)

/-! ### Sample data

Concrete archive rows used to instantiate the theorems. `sampleUnitsRow`
stands for the units row a real IBTrACS CSV carries right after the
header; `sampleRow2021` is an IDA-style observation whose official WMO
fields are blank, as in the 2021 data. -/

/-- A stand-in for the archive's units row (dropped by `data.iloc[1:, :]`). -/
def sampleUnitsRow : Row :=
  { name := " ", isoTime := 0, wmoWind := Cell.blank, wmoPres := Cell.blank,
    lat := 0, lon := 0,
    r34 := ⟨Cell.blank, Cell.blank, Cell.blank, Cell.blank⟩,
    r50 := ⟨Cell.blank, Cell.blank, Cell.blank, Cell.blank⟩,
    r64 := ⟨Cell.blank, Cell.blank, Cell.blank, Cell.blank⟩ }

/-- An IDA observation from 2021 with blank WMO wind/pressure. -/
def sampleRow2021 : Row :=
  { name := "IDA", isoTime := 2021, wmoWind := Cell.blank, wmoPres := Cell.blank,
    lat := 20, lon := 40,
    r34 := ⟨Cell.num 50, Cell.num 60, Cell.num 40, Cell.num 55⟩,
    r50 := ⟨Cell.blank, Cell.blank, Cell.blank, Cell.blank⟩,
    r64 := ⟨Cell.blank, Cell.blank, Cell.blank, Cell.blank⟩ }

/-- An observation with populated WMO wind/pressure. -/
def sampleRowGood : Row :=
  { name := "SAM", isoTime := 2020, wmoWind := Cell.num 50, wmoPres := Cell.num 980,
    lat := 20, lon := -40,
    r34 := ⟨Cell.num 50, Cell.num 60, Cell.num 40, Cell.num 55⟩,
    r50 := ⟨Cell.blank, Cell.blank, Cell.blank, Cell.blank⟩,
    r64 := ⟨Cell.blank, Cell.blank, Cell.blank, Cell.blank⟩ }

/-- A two-row sample archive: units row, then the blank-WMO 2021 row. -/
def sampleArchive : List Row := [sampleUnitsRow, sampleRow2021]

/-! ### Helper lemmas -/

/-- `pymod · 360` is `360` times the fractional part of the scaled input. -/
theorem pymod_eq_fract (a : ℚ) : pymod a 360 = 360 * Int.fract (a / 360) := by
  rw [pymod, Int.fract]
  field_simp

/-- Python modulo by `360` is non-negative. -/
theorem pymod_nonneg (a : ℚ) : 0 ≤ pymod a 360 := by
  rw [pymod_eq_fract]
  exact mul_nonneg (by norm_num) (Int.fract_nonneg _)

/-- Python modulo by `360` is below `360`. -/
theorem pymod_lt (a : ℚ) : pymod a 360 < 360 := by
  rw [pymod_eq_fract]
  nlinarith [Int.fract_lt_one (a / 360)]

/-- Python modulo by `360` is invariant under adding `360`. -/
theorem pymod_add_360 (a : ℚ) : pymod (a + 360) 360 = pymod a 360 := by
  rw [pymod_eq_fract, pymod_eq_fract]
  have h : (a + 360) / 360 = a / 360 + ((1 : ℤ) : ℚ) := by push_cast; ring
  rw [h, Int.fract_add_int]

/-- A cell that passes `isNum` is a numeric cell. -/
theorem Cell.eq_num_of_isNum {c : Cell} (h : c.isNum = true) : ∃ n, c = Cell.num n := by
  cases c with
  | num n => exact ⟨n, rfl⟩
  | blank => simp [Cell.isNum] at h
  | na => simp [Cell.isNum] at h
  | str s => simp [Cell.isNum] at h

/-- `int(v)` raises on every non-numeric cell, so the list conversion of
`_parse_radii` raises as soon as the list holds one. -/
theorem radiiValues_error {l : List Cell} (scale : ℚ)
    (h : ∃ c ∈ l, c.isNum = false) : radiiValues l scale = .error () := by
  induction l with
  | nil => simp at h
  | cons v rest ih =>
    obtain ⟨c, hc, hnum⟩ := h
    rcases List.mem_cons.mp hc with rfl | hmem
    · cases c with
      | num n => simp [Cell.isNum] at hnum
      | blank => simp [radiiValues, Cell.toIntExcept]
      | na => simp [radiiValues, Cell.toIntExcept]
      | str s => simp [radiiValues, Cell.toIntExcept]
    · have htail := ih ⟨c, hmem, hnum⟩
      cases v with
      | num n => simp [radiiValues, Cell.toIntExcept, htail]
      | blank => simp [radiiValues, Cell.toIntExcept]
      | na => simp [radiiValues, Cell.toIntExcept]
      | str s => simp [radiiValues, Cell.toIntExcept]

/-- When no row past the units row matches both the requested name and the
requested year window, every stage of `get_storm_track` downstream of the
name and time masks sees an empty frame. -/
theorem getStormTrack_no_match_year (name : String) (year : Int) (archive : List Row)
    (b : Bool)
    (h : ∀ r ∈ archive.drop 1,
      ¬(r.name = name ∧ toDatetimeOfYear year ≤ r.isoTime ∧
        r.isoTime < toDatetimeOfYear (year + 1))) :
    getStormTrack name year archive b = [] := by
  have hfilter : ((archive.drop 1).filter (fun r => r.name == name)).filter
      (fun r => decide (toDatetimeOfYear year ≤ r.isoTime) &&
        decide (r.isoTime < toDatetimeOfYear (year + 1))) = [] := by
    apply List.filter_eq_nil_iff.mpr
    intro r hr
    have hmem := (List.mem_filter.mp hr).1
    have hname : r.name = name := by
      have := (List.mem_filter.mp hr).2
      simpa using this
    intro hcontra
    rw [Bool.and_eq_true, decide_eq_true_eq, decide_eq_true_eq] at hcontra
    exact h r hmem ⟨hname, hcontra.1, hcontra.2⟩
  simp only [getStormTrack]
  rw [hfilter]
  cases b <;> simp

/-- Special case: when no row past the units row even bears the requested
name, the result is empty. -/
theorem getStormTrack_no_match (name : String) (year : Int) (archive : List Row)
    (b : Bool) (h : ∀ r ∈ archive.drop 1, r.name ≠ name) :
    getStormTrack name year archive b = [] :=
  getStormTrack_no_match_year name year archive b
    (fun r hr hcon => h r hr hcon.1)

/-! ### Claims -/

/-- **C1** (counterexample). At center `(0, 0)` with radii
`[SE, NE, SW, NW] = [1, 2, 3, 4]`, the spokes the code draws are not the
spokes the claim describes; moreover the claim's spokes cover the center
point `(0, 0)` while the code's spokes do not, so the two descriptions draw
different sets of points. -/
theorem draw_wind_radii_arcs_spokes_counterexample :
    ((drawWindRadiiArcs 0 0 [1, 2, 3, 4]).filter Prim.isSpoke ≠
      specClaimedSpokes 0 0 [1, 2, 3, 4]) ∧
    (specClaimedSpokes 0 0 [1, 2, 3, 4]).any (fun p => p.coversPoint (0, 0)) = true ∧
    ((drawWindRadiiArcs 0 0 [1, 2, 3, 4]).filter Prim.isSpoke).any
      (fun p => p.coversPoint (0, 0)) = false := by
  refine ⟨?_, ?_, ?_⟩
  · norm_num [drawWindRadiiArcs, specClaimedSpokes, Prim.isSpoke, Prim.isArc, List.filter]
  · norm_num [specClaimedSpokes, Prim.coversPoint]
  · norm_num [drawWindRadiiArcs, Prim.isSpoke, Prim.coversPoint, List.filter]

/-- **C1** (amended). For every center `(xc, yc)` and radii
`[SE, NE, SW, NW] = [r0, r1, r2, r3]`, `draw_wind_radii_arcs` draws exactly
four connector spokes: a horizontal segment from `x + radius[SE]` to
`x + radius[NW]` and one from `x - radius[NE]` to `x - radius[SW]`, both at
`y = center_y`; a vertical segment from `y + radius[SE]` to
`y + radius[NE]` and one from `y - radius[SW]` to `y - radius[NW]`, both at
`x = center_x` (the `hlines`/`vlines` calls pair their min and max lists
element-wise). -/
theorem draw_wind_radii_arcs_spokes (xc yc r0 r1 r2 r3 : ℚ) :
    (drawWindRadiiArcs xc yc [r0, r1, r2, r3]).filter Prim.isSpoke =
      [Prim.hseg yc (xc + r0) (xc + r3), Prim.hseg yc (xc - r1) (xc - r2),
       Prim.vseg xc (yc + r0) (yc + r1), Prim.vseg xc (yc - r2) (yc - r3)] := by
  simp [drawWindRadiiArcs, Prim.isSpoke, List.filter]

/-- **C2**. For every center `(xc, yc)` and radii
`[SE, NE, SW, NW] = [r0, r1, r2, r3]`, `draw_wind_radii_arcs` draws exactly
four 90-degree arcs centered at the point, SE spanning `[0, 90)`, NE
`[90, 180)`, SW `[180, 270)`, NW `[270, 360)`, each using its own
quadrant's radius as both width and height (`2 * rad` for both, a true
circle). -/
theorem draw_wind_radii_arcs_arcs (xc yc r0 r1 r2 r3 : ℚ) :
    (drawWindRadiiArcs xc yc [r0, r1, r2, r3]).filter Prim.isArc =
      [Prim.arc xc yc (2 * r0) (2 * r0) 0 90,
       Prim.arc xc yc (2 * r1) (2 * r1) 90 180,
       Prim.arc xc yc (2 * r2) (2 * r2) 180 270,
       Prim.arc xc yc (2 * r3) (2 * r3) 270 360] := by
  norm_num [drawWindRadiiArcs, Prim.isArc, List.filter]

/-- **C4**. For every signed longitude `L` in `[-180, 180)`, the
normalization `(360 + (L mod 360)) mod 360` lands in `[0, 360)` and agrees
with the normalization of `L + 360`. -/
theorem lon_to_360_range_period (L : ℚ) (h1 : -180 ≤ L) (h2 : L < 180) :
    (0 ≤ lonTo360 L ∧ lonTo360 L < 360) ∧ lonTo360 L = lonTo360 (L + 360) := by
  refine ⟨⟨pymod_nonneg _, pymod_lt _⟩, ?_⟩
  unfold lonTo360
  rw [pymod_add_360 L]

/-- **C4** (witness) at `L = -40`. -/
theorem lon_to_360_range_period_witness :
    (-180 ≤ (-40 : ℚ) ∧ (-40 : ℚ) < 180) ∧
    ((0 ≤ lonTo360 (-40) ∧ lonTo360 (-40) < 360) ∧
      lonTo360 (-40) = lonTo360 (-40 + 360)) :=
  ⟨⟨by norm_num, by norm_num⟩, lon_to_360_range_period (-40) (by norm_num) (by norm_num)⟩

/-- **C3**. For a row and one wind threshold: when all four quadrant cells
are numeric, the renderer draws exactly 4 arcs and 4 spokes for that
threshold; when any one of the four is absent (blank or NaN), it draws
nothing for that threshold. -/
theorem draw_threshold_ring_counts (xc yc scale : ℚ) (q : Quad) :
    ((q.se.isNum = true ∧ q.ne.isNum = true ∧ q.sw.isNum = true ∧ q.nw.isNum = true) →
      ∃ prims, drawThreshold xc yc q scale = .ok prims ∧
        (prims.filter Prim.isArc).length = 4 ∧
        (prims.filter Prim.isSpoke).length = 4 ∧
        prims.length = 8) ∧
    ((q.se.isAbsent = true ∨ q.ne.isAbsent = true ∨ q.sw.isAbsent = true ∨
        q.nw.isAbsent = true) →
      drawThreshold xc yc q scale = .ok []) := by
  constructor
  · rintro ⟨hse, hne, hsw, hnw⟩
    obtain ⟨a, ha⟩ := Cell.eq_num_of_isNum hse
    obtain ⟨b, hb⟩ := Cell.eq_num_of_isNum hne
    obtain ⟨c, hc⟩ := Cell.eq_num_of_isNum hsw
    obtain ⟨d, hd⟩ := Cell.eq_num_of_isNum hnw
    obtain ⟨se, ne, sw, nw⟩ := q
    simp only at ha hb hc hd
    subst ha hb hc hd
    refine ⟨drawWindRadiiArcs xc yc
      [(a : ℚ) / scale, (b : ℚ) / scale, (c : ℚ) / scale, (d : ℚ) / scale], ?_, ?_, ?_, ?_⟩
    · simp [drawThreshold, parseRadii, radiiValues, Cell.toIntExcept,
        Cell.isBlankSpace, Cell.isna]
    · simp [drawWindRadiiArcs, Prim.isArc, List.filter]
    · simp [drawWindRadiiArcs, Prim.isSpoke, List.filter]
    · simp [drawWindRadiiArcs]
  · intro habs
    have hnone : parseRadii q scale = .ok none := by
      simp only [parseRadii]
      rw [if_pos]
      simp only [List.any_cons, List.any_nil, Bool.or_false, Bool.or_eq_true]
      rcases habs with h | h | h | h
      · exact Or.inl (by simpa [Cell.isAbsent] using h)
      · exact Or.inr (Or.inl (by simpa [Cell.isAbsent] using h))
      · exact Or.inr (Or.inr (Or.inl (by simpa [Cell.isAbsent] using h)))
      · exact Or.inr (Or.inr (Or.inr (by simpa [Cell.isAbsent] using h)))
    simp [drawThreshold, hnone]

/-- **C3** (witness): an all-numeric quadrant set yields 4 arcs and 4
spokes; a set with one blank quadrant yields nothing. -/
theorem draw_threshold_ring_counts_witness :
    ((Cell.num 50).isNum = true ∧ (Cell.num 60).isNum = true ∧
      (Cell.num 40).isNum = true ∧ (Cell.num 55).isNum = true) ∧
    (∃ prims,
      drawThreshold 0 0 (⟨Cell.num 50, Cell.num 60, Cell.num 40, Cell.num 55⟩ : Quad) 70 =
        .ok prims ∧
      (prims.filter Prim.isArc).length = 4 ∧
      (prims.filter Prim.isSpoke).length = 4 ∧ prims.length = 8) ∧
    drawThreshold 0 0 (⟨Cell.blank, Cell.num 60, Cell.num 40, Cell.num 55⟩ : Quad) 70 =
      .ok [] :=
  ⟨⟨rfl, rfl, rfl, rfl⟩,
   (draw_threshold_ring_counts 0 0 70
      ⟨Cell.num 50, Cell.num 60, Cell.num 40, Cell.num 55⟩).1 ⟨rfl, rfl, rfl, rfl⟩,
   (draw_threshold_ring_counts 0 0 70
      ⟨Cell.blank, Cell.num 60, Cell.num 40, Cell.num 55⟩).2 (Or.inl rfl)⟩

/-- **C7** (counterexample). A quadrant value that is a non-blank,
non-numeric string (here `"X"`) makes `_parse_radii` raise (the `int(v)`
call), rather than return `None`. -/
theorem parse_radii_nonnumeric_counterexample :
    parseRadii (⟨Cell.num 50, Cell.num 60, Cell.num 40, Cell.str "X"⟩ : Quad) 70 =
      .error () ∧
    parseRadii (⟨Cell.num 50, Cell.num 60, Cell.num 40, Cell.str "X"⟩ : Quad) 70 ≠
      .ok none := by
  have h : parseRadii (⟨Cell.num 50, Cell.num 60, Cell.num 40, Cell.str "X"⟩ : Quad) 70 =
      .error () := by
    norm_num [parseRadii, radiiValues, Cell.toIntExcept, Cell.isBlankSpace, Cell.isna]
  exact ⟨h, by rw [h]; exact fun hc => Except.noConfusion hc⟩

/-- **C7** (amended). A blank or NaN quadrant value makes `_parse_radii`
return `None` (the ring is skipped, no error); but a non-blank, non-NaN,
non-numeric value escapes the guard and makes the `int` conversion
raise. -/
theorem parse_radii_absent_or_error (q : Quad) (scale : ℚ) :
    ((q.se.isAbsent || q.ne.isAbsent || q.sw.isAbsent || q.nw.isAbsent) = true →
      parseRadii q scale = .ok none) ∧
    ((q.se.isAbsent || q.ne.isAbsent || q.sw.isAbsent || q.nw.isAbsent) = false →
      (q.se.isNum && q.ne.isNum && q.sw.isNum && q.nw.isNum) = false →
      parseRadii q scale = .error ()) := by
  constructor
  · intro habs
    simp only [parseRadii]
    rw [if_pos]
    simp only [List.any_cons, List.any_nil, Bool.or_false]
    simpa [Cell.isAbsent, Bool.or_assoc] using habs
  · intro habs hnum
    have hcond : ([q.se, q.ne, q.sw, q.nw].any (fun v => v.isBlankSpace || v.isna)) = false := by
      simp only [List.any_cons, List.any_nil, Bool.or_false]
      simpa [Cell.isAbsent, Bool.or_assoc] using habs
    have herr : radiiValues [q.se, q.ne, q.sw, q.nw] scale = .error () := by
      apply radiiValues_error
      cases hse : q.se.isNum with
      | false => exact ⟨q.se, by simp, hse⟩
      | true =>
        cases hne : q.ne.isNum with
        | false => exact ⟨q.ne, by simp, hne⟩
        | true =>
          cases hsw : q.sw.isNum with
          | false => exact ⟨q.sw, by simp, hsw⟩
          | true =>
            cases hnw : q.nw.isNum with
            | false => exact ⟨q.nw, by simp, hnw⟩
            | true => rw [hse, hne, hsw, hnw] at hnum; simp at hnum
    simp [parseRadii, hcond, herr]

/-- **C7** (witness): a blank quadrant gives `None`; an all-present set
with a non-numeric string raises. -/
theorem parse_radii_absent_or_error_witness :
    parseRadii (⟨Cell.blank, Cell.num 60, Cell.num 40, Cell.num 55⟩ : Quad) 70 =
      .ok none ∧
    parseRadii (⟨Cell.num 50, Cell.num 60, Cell.num 40, Cell.str "Y"⟩ : Quad) 70 =
      .error () :=
  ⟨(parse_radii_absent_or_error ⟨Cell.blank, Cell.num 60, Cell.num 40, Cell.num 55⟩ 70).1
      rfl,
   (parse_radii_absent_or_error ⟨Cell.num 50, Cell.num 60, Cell.num 40, Cell.str "Y"⟩ 70).2
      rfl rfl⟩

/-- A cell that is not the blank marker differs from `Cell.blank`. -/
theorem Cell.ne_blank_of_not_isBlankSpace {c : Cell} (h : c.isBlankSpace = false) :
    c ≠ Cell.blank := by
  cases c with
  | blank => simp [Cell.isBlankSpace] at h
  | na => exact fun hc => Cell.noConfusion hc
  | num n => exact fun hc => Cell.noConfusion hc
  | str s => exact fun hc => Cell.noConfusion hc

/-- **C5**. With the missing-official-fields filter enabled (the default),
no returned row has a blank WMO wind or WMO pressure; with it disabled,
every name/year-matching row is retained in the result, blank official
fields or not. -/
theorem get_storm_track_wmo_filter (name : String) (year : Int) (archive : List Row) :
    (∀ r ∈ getStormTrack name year archive true,
      r.wmoWind ≠ Cell.blank ∧ r.wmoPres ≠ Cell.blank) ∧
    (∀ row ∈ archive.drop 1, row.name = name →
      toDatetimeOfYear year ≤ row.isoTime →
      row.isoTime < toDatetimeOfYear (year + 1) →
      row.toTrackRow ∈ getStormTrack name year archive false) := by
  constructor
  · intro r hr
    simp only [getStormTrack, if_pos, List.mem_map, List.mem_filter] at hr
    obtain ⟨row, ⟨⟨_, hwind⟩, hpres⟩, hrow⟩ := hr
    subst hrow
    constructor
    · exact Cell.ne_blank_of_not_isBlankSpace (by simpa [Row.toTrackRow] using hwind)
    · exact Cell.ne_blank_of_not_isBlankSpace (by simpa [Row.toTrackRow] using hpres)
  · intro row hrow hname hge hlt
    simp only [getStormTrack, Bool.false_eq_true, if_false, List.mem_map, List.mem_filter]
    exact ⟨row, ⟨⟨hrow, by simp [hname]⟩, by simp [hge, hlt]⟩, rfl⟩

/-- **C5** (witness): in a sample 2021 archive, the blank-WMO row is
retained when the filter is disabled. -/
theorem get_storm_track_wmo_filter_witness :
    sampleRow2021.toTrackRow ∈ getStormTrack "IDA" 2021 sampleArchive false :=
  (get_storm_track_wmo_filter "IDA" 2021 sampleArchive).2 sampleRow2021
    (by simp [sampleArchive]) rfl
    (by norm_num [sampleRow2021, toDatetimeOfYear])
    (by norm_num [sampleRow2021, toDatetimeOfYear])

/-- Python `"IDA".upper() == "IDA"`. -/
theorem toUpper_IDA : "IDA".toUpper = "IDA" := by
  show String.map Char.toUpper "IDA" = "IDA"
  rw [String.map_eq]
  decide

/-- **C6** (counterexample). With the disable flag not passed and year
2021, `main` computes `filter_wmo = False` (the hard-coded
`args.year != 2021` clause), and on an archive whose 2021 row has blank
WMO fields the loader call differs observably from a filter-enabled
call. -/
theorem cli_no_flag_2021_counterexample :
    cliFilterWmo false 2021 = false ∧
    mainTrack "IDA" 2021 sampleArchive false ≠
      getStormTrack "IDA" 2021 sampleArchive true := by
  constructor
  · rfl
  · have hmain : mainTrack "IDA" 2021 sampleArchive false =
        getStormTrack "IDA" 2021 sampleArchive false := by
      simp [mainTrack, cliFilterWmo, toUpper_IDA]
    rw [hmain]
    have hfalse : getStormTrack "IDA" 2021 sampleArchive false =
        [sampleRow2021.toTrackRow] := by
      norm_num [getStormTrack, sampleArchive, sampleUnitsRow, sampleRow2021,
        toDatetimeOfYear, List.filter]
    have htrue : getStormTrack "IDA" 2021 sampleArchive true = [] := by
      norm_num [getStormTrack, sampleArchive, sampleUnitsRow, sampleRow2021,
        toDatetimeOfYear, List.filter, Cell.isBlankSpace]
    rw [hfalse, htrue]
    simp

/-- **C6** (amended). When the disable flag is not passed, `main` calls
the loader with the filter enabled for every year except 2021; for year
2021 it disables the filter automatically (the hard-coded
`args.year != 2021` special case). -/
theorem cli_filter_decision (name : String) (archive : List Row) (year : Int) :
    (year ≠ 2021 →
      mainTrack name year archive false =
        getStormTrack name.toUpper year archive true) ∧
    mainTrack name 2021 archive false =
      getStormTrack name.toUpper 2021 archive false := by
  constructor
  · intro hy
    simp [mainTrack, cliFilterWmo, beq_eq_false_iff_ne.mpr hy]
  · simp [mainTrack, cliFilterWmo]

/-- **C6** (witness) at year 2020. -/
theorem cli_filter_decision_witness :
    (2020 : Int) ≠ 2021 ∧
    mainTrack "IDA" 2020 sampleArchive false =
      getStormTrack "IDA".toUpper 2020 sampleArchive true :=
  ⟨by norm_num, (cli_filter_decision "IDA" sampleArchive 2020).1 (by norm_num)⟩

/-- **C8** (counterexample). With zero matching rows the loader does
return an empty track, but `plot_track`'s base-map extent is computed from
the min/max of the track's coordinates: on the empty track no finite
extent exists (pandas `min`/`max` of an empty column is NaN), while a
one-row track yields one — base map setup does depend on track
content. -/
theorem empty_track_extent_counterexample :
    getStormTrack "NOSUCH" 2020 sampleArchive true = [] ∧
    trackExtent (getStormTrack "NOSUCH" 2020 sampleArchive true) 10 = none ∧
    trackExtent [sampleRowGood.toTrackRow] 10 ≠ none := by
  have he : getStormTrack "NOSUCH" 2020 sampleArchive true = [] := by
    apply getStormTrack_no_match
    intro r hr

    simp [sampleArchive] at hr
    subst hr
    simp [sampleRow2021]
  refine ⟨he, by rw [he]; rfl, ?_⟩
  simp [trackExtent]

/-- **C8** (amended). For a well-formed archive in which zero rows match
the requested storm name and year, `get_storm_track` returns an empty
track (it is total, no exception path); but `plot_track`'s base-map extent
is the padded min/max of the track coordinates, which has no value on the
empty track, so base-map setup does depend on track content and receives
no finite extent. -/
theorem get_storm_track_empty_extent (name : String) (year : Int)
    (archive : List Row) (b : Bool) (offset : ℚ)
    (h : ∀ r ∈ archive.drop 1,
      ¬(r.name = name ∧ toDatetimeOfYear year ≤ r.isoTime ∧
        r.isoTime < toDatetimeOfYear (year + 1))) :
    getStormTrack name year archive b = [] ∧
    trackExtent (getStormTrack name year archive b) offset = none := by
  have he := getStormTrack_no_match_year name year archive b h
  exact ⟨he, by rw [he]; rfl⟩

/-- **C8** (witness): the sample archive's only observation bears the
requested name but lies outside the requested year window, so zero rows
match the name/year pair. -/
theorem get_storm_track_empty_extent_witness :
    getStormTrack "IDA" 2020 sampleArchive true = [] ∧
    trackExtent (getStormTrack "IDA" 2020 sampleArchive true) 10 = none :=
  get_storm_track_empty_extent "IDA" 2020 sampleArchive true 10
    (by
      intro r hr
      simp [sampleArchive] at hr
      subst hr
      norm_num [sampleRow2021, toDatetimeOfYear])

/-- The sign-accumulator form of the annotation-offset alternation:
starting from accumulator `s`, row `i` uses the positive offset exactly
when `s * (-1) ^ i` is positive. -/
theorem annotationOffsetsAux_getD (track : List TrackRow) :
    ∀ (s : Int) (i : ℕ), i < track.length →
      (annotationOffsetsAux track s).getD i (0, 0) =
        if s * (-1) ^ i > 0 then ANNOTATION_OFFSET_POS else ANNOTATION_OFFSET_NEG := by
  induction track with
  | nil => intro s i h; simp at h
  | cons t rest ih =>
    intro s i h
    cases i with
    | zero => simp [annotationOffsetsAux]
    | succ n =>
      have hlen : n < rest.length := by simpa using h
      simp only [annotationOffsetsAux, List.getD_cons_succ]
      rw [ih (s * (-1)) n hlen]
      have harith : s * (-1) * (-1) ^ n = s * (-1) ^ (n + 1) := by
        rw [pow_succ]; ring
      rw [harith]

/-- **C9**. In `plot_track`, row index `i` uses the positive annotation
offset exactly when `i` is even, whatever the rows hold: the `sign`
accumulator starts at 1 and is negated once per row, never reading the
row. -/
theorem annotation_offsets_alternate (track : List TrackRow) (i : ℕ)
    (h : i < track.length) :
    (annotationOffsets track).getD i (0, 0) =
      if i % 2 = 0 then ANNOTATION_OFFSET_POS else ANNOTATION_OFFSET_NEG := by
  rw [annotationOffsets, annotationOffsetsAux_getD track 1 i h]
  rcases Nat.even_or_odd i with he | ho
  · have hp : ((-1 : ℤ)) ^ i = 1 := he.neg_one_pow
    simp [hp, Nat.even_iff.mp he]
  · have hp : ((-1 : ℤ)) ^ i = -1 := ho.neg_one_pow
    simp [hp, Nat.odd_iff.mp ho]

/-- **C9** (witness) at row index 1 of a two-row track. -/
theorem annotation_offsets_alternate_witness :
    1 < ([sampleRow2021.toTrackRow, sampleRowGood.toTrackRow] : List TrackRow).length ∧
    (annotationOffsets [sampleRow2021.toTrackRow, sampleRowGood.toTrackRow]).getD 1 (0, 0) =
      if 1 % 2 = 0 then ANNOTATION_OFFSET_POS else ANNOTATION_OFFSET_NEG :=
  ⟨by norm_num,
   annotation_offsets_alternate [sampleRow2021.toTrackRow, sampleRowGood.toTrackRow] 1
     (by norm_num)⟩

/-- **C10**. `main` uppercases the supplied storm name before calling the
loader (so a lowercase `--name` selects the uppercase archive name through
the CLI), while `get_storm_track` itself matches `NAME` by case-sensitive
exact equality: called directly with a name containing a lowercase letter
against an archive whose names hold no lowercase letters, it returns zero
rows. -/
theorem cli_uppercase_name_case_sensitivity (s : String) (year : Int)
    (archive : List Row) (b nf : Bool)
    (hs : ∃ c ∈ s.data, c.isLower = true)
    (harch : ∀ r ∈ archive.drop 1, ∀ c ∈ r.name.data, c.isLower = false) :
    mainTrack s year archive nf =
      getStormTrack s.toUpper year archive (cliFilterWmo nf year) ∧
    getStormTrack s year archive b = [] := by
  refine ⟨rfl, getStormTrack_no_match s year archive b ?_⟩
  intro r hr heq
  obtain ⟨c, hc, hlow⟩ := hs
  have hfalse := harch r hr c (by rw [heq]; exact hc)
  rw [hfalse] at hlow
  exact Bool.noConfusion hlow

/-- **C10** (witness): `"ida"` against an archive naming the storm
`"IDA"`. -/
theorem cli_uppercase_name_case_sensitivity_witness :
    (mainTrack "ida" 2021 sampleArchive false =
      getStormTrack "ida".toUpper 2021 sampleArchive (cliFilterWmo false 2021)) ∧
    getStormTrack "ida" 2021 sampleArchive true = [] :=
  cli_uppercase_name_case_sensitivity "ida" 2021 sampleArchive true false
    (by decide)
    (by intro r hr; simp [sampleArchive] at hr; subst hr; decide)

end TcViz
